import Mathlib

/-!
# A verification model of the Noodles external-control Python client

This file is a shallow embedding of `examples/external-control/create_pipeline.py`
(class `NoodlesClient`).  Pure structure is translated directly; the effectful
parts (the wall clock, the WebSocket transport) are made explicit:

* parsed JSON values are the inductive `Json` (JSON numbers are modelled as
  integers; no claim involves fractional numbers);
* the wall clock is a list of future readings of `time.time()`, each reading
  carrying the string Python prints for it and the value of
  `int(reading * 1000)`;
* the transport is part of a `World`: a supply of fresh channel handles, the
  set of open channels, and the ordered log of transmitted messages;
* the inbound side of the socket is a list of `RecvEvent`s: each call to
  `ws.recv()` consumes the next event, taking `duration` seconds and either
  delivering a parsed message or raising `WebSocketTimeoutException`.

Python exceptions surface as explicit outcome constructors.
-/

namespace Noodles

/-- Parsed JSON values (`json.loads` results).  Numbers are modelled as
integers: the script never manipulates fractional payload numbers. -/
inductive Json where
  | null : Json
  | bool : Bool → Json
  | num : Int → Json
  | str : String → Json
  | arr : List Json → Json
  | obj : List (String × Json) → Json

/-- Lookup of a key in a JSON object's field list (Python dict lookup;
keys of a Python dict are unique, so first match is the match). -/
def getField : List (String × Json) → String → Option Json
  | [], _ => none
  | (k, v) :: rest, key => if k = key then some v else getField rest key

/-- Python `d[k]` / `d.get(k)` on a parsed JSON value: returns the field when the
value is an object and has the key, `none` otherwise (covering Python's
`KeyError` / `.get` default / `TypeError` on non-dict indexing). -/
def Json.get : Json → String → Option Json
  | .obj fields, key => getField fields key
  | _, _ => none

/-- Python `value == s` for a parsed JSON value against a `str`: true exactly
when the value is a string equal to `s`. -/
def jsonEqStr : Json → String → Bool
  | .str t, s => t = s
  | _, _ => false

/-- Python `d.get(k) == s`: the `.get` result (value or `None`) compared
against a `str`. -/
def optEqStr : Option Json → String → Bool
  | some v, s => jsonEqStr v s
  | none, _ => false

mutual

/-- Python `repr` of a parsed JSON value (string escaping inside quotes is
not modelled; no claim exercises it). -/
def Json.pyRepr : Json → String
  | .null => "None"
  | .bool true => "True"
  | .bool false => "False"
  | .num n => toString n
  | .str s => "\x27" ++ s ++ "\x27"
  | .arr xs => "[" ++ pyReprList xs ++ "]"
  | .obj fs => "\x7b" ++ pyReprFields fs ++ "\x7d"

/-- comma-separated `repr`s of list elements. -/
def pyReprList : List Json → String
  | [] => ""
  | [x] => Json.pyRepr x
  | x :: rest => Json.pyRepr x ++ ", " ++ pyReprList rest

/-- comma-separated `repr`s of dict entries. -/
def pyReprFields : List (String × Json) → String
  | [] => ""
  | [(k, v)] => "\x27" ++ k ++ "\x27: " ++ Json.pyRepr v
  | (k, v) :: rest => "\x27" ++ k ++ "\x27: " ++ Json.pyRepr v ++ ", " ++ pyReprFields rest

end

/-- Python `str` of a parsed JSON value (as interpolated by an f-string):
a string interpolates as itself, anything else as its `repr`-style
rendering. -/
def Json.pyStr : Json → String
  | .str s => s
  | v => v.pyRepr

/-- One reading of `time.time()`: `render` is the text an f-string produces
for it (`str` of the float), `ms` is `int(reading * 1000)`. -/
structure TimeVal where
  render : String
  ms : Int

/-- The effectful environment of the client: the future clock readings, the
supply of fresh channel handles, which channels are open, and the ordered
log of (channel, message) pairs transmitted so far. -/
structure World where
  clock : List TimeVal
  nextChan : Nat
  openChans : List Nat
  sent : List (Nat × Json)

/-- The current `time.time()` reading (head of the clock). -/
def World.timeNow (w : World) : TimeVal :=
  w.clock.headD ⟨"", 0⟩

/-- Advance past the current clock reading. -/
def World.tick (w : World) : World :=
  { w with clock := w.clock.tail }

/-- The Python-visible state of a `NoodlesClient` instance: constructor
arguments plus the mutable `self.ws` (a channel handle when connected,
`None` otherwise) and the `self.message_id` counter (starts at 0). -/
structure Client where
  host : String
  port : Nat
  debug : Bool
  ws : Option Nat
  message_id : Nat

/-- Constructor `NoodlesClient(host, port, debug)`: `ws = None`, `message_id = 0`. -/
def Client.init (host : String) (port : Nat) (debug : Bool) : Client :=
  { host := host, port := port, debug := debug, ws := none, message_id := 0 }

/-- Decimal digits (most significant first) of `n`, fuel-indexed so the
recursion is structural: with `fuel ≥ n` the fuel never runs out. -/
def digitsAux : Nat → Nat → List Char
  | _, 0 => []
  | 0, _ + 1 => []
  | fuel + 1, n + 1 =>
    digitsAux fuel ((n + 1) / 10) ++ [Nat.digitChar ((n + 1) % 10)]

/-- Python `f"{n}"` for a nonnegative int `n`: its decimal numeral. -/
def pyNatStr (n : Nat) : String :=
  if n = 0 then "0" else ⟨digitsAux n n⟩

/-- Method `send_message(self, msg_type, payload)`: bump the counter, build the
message dict (consuming two clock readings: one interpolated into the id
string, one for the millisecond timestamp), transmit its serialization on
`self.ws`, return the id.  When `self.ws` is `None`, Python raises
`AttributeError`; modelled as `none`. -/
def send_message (c : Client) (w : World) (msg_type : String) (payload : Json) :
    Option (String × Client × World) :=
  match c.ws with
  | none => none
  | some ch =>
    let mid := c.message_id + 1
    let t1 := w.timeNow
    let w1 := w.tick
    let ts := w1.timeNow.ms
    let w2 := w1.tick
    let idStr := "py-" ++ pyNatStr mid ++ "-" ++ t1.render
    let message : Json := .obj
      [("id", .str idStr), ("type", .str msg_type),
       ("timestamp", .num ts), ("payload", payload)]
    some (idStr, { c with message_id := mid },
      { w2 with sent := w2.sent ++ [(ch, message)] })

/-- Method `connect(self)`: create a fresh channel (`websocket.create_connection`),
store it in `self.ws`, then send the `connect` handshake.  One clock reading
is consumed building the `clientId` string before `send_message` runs.
Transport failure on an unreachable endpoint is outside this model: channel
creation always succeeds here. -/
def connect (c : Client) (w : World) : Option (Client × World) :=
  let ch := w.nextChan
  let w1 : World := { w with nextChan := ch + 1, openChans := ch :: w.openChans }
  let c1 : Client := { c with ws := some ch }
  let t0 := w1.timeNow
  let w2 := w1.tick
  let payload : Json := .obj
    [("clientId", .str ("python-client-" ++ t0.render)),
     ("version", .str "1.0.0"),
     ("capabilities", .arr [.str "pipeline", .str "tools", .str "state"])]
  match send_message c1 w2 "connect" payload with
  | none => none
  | some (_, c2, w3) => some (c2, w3)

/-- Method `disconnect(self)`: `if self.ws: self.ws.close(); self.ws = None`.
When `self.ws` is already `None` nothing at all happens (no close call, no
exception). -/
def disconnect (c : Client) (w : World) : Client × World :=
  match c.ws with
  | none => (c, w)
  | some ch => ({ c with ws := none }, { w with openChans := w.openChans.erase ch })

/-- One completed call to `self.ws.recv()`: it takes `duration` seconds and
either delivers a parsed inbound message (`some data`) or raises
`websocket.WebSocketTimeoutException` (`none`). -/
structure RecvEvent where
  duration : ℚ
  result : Option Json

/-- Outcomes of `wait_for_response`.  `found` is a normal return;
`timeoutExpired` is the `raise TimeoutError(...)` after the while loop;
`attrError` is the uncaught `AttributeError` from `data.get` when a
delivered message is not a JSON object; `starved` marks the model running
out of supplied receive events while the loop would still be waiting (the
real socket would block). -/
inductive WaitOutcome where
  | found : Json → WaitOutcome
  | timeoutExpired : WaitOutcome
  | attrError : WaitOutcome
  | starved : WaitOutcome

/-- The body of `wait_for_response`'s while loop.  `elapsed` is
`time.time() - start_time`: the sum of the durations of the receive events
consumed so far.  At the top of each iteration the loop runs only while
`elapsed < timeout`; otherwise `TimeoutError` is raised.  A delivered
message is returned iff `data.get("id") == message_id`; every other
delivery — and every `WebSocketTimeoutException` — just continues the
loop, discarding the message. -/
def waitLoop (message_id : String) (timeout : ℚ) :
    List RecvEvent → ℚ → WaitOutcome
  | events, elapsed =>
    if elapsed < timeout then
      match events with
      | [] => .starved
      | e :: rest =>
        match e.result with
        | none => waitLoop message_id timeout rest (elapsed + e.duration)
        | some data =>
          match data with
          | .obj fields =>
            if optEqStr (getField fields "id") message_id then .found data
            else waitLoop message_id timeout rest (elapsed + e.duration)
          | _ => .attrError
    else .timeoutExpired

/-- Method `wait_for_response(self, message_id, timeout)`: scan inbound messages
until one carries the awaited id, starting from `elapsed = 0`. -/
def wait_for_response (message_id : String) (timeout : ℚ)
    (events : List RecvEvent) : WaitOutcome :=
  waitLoop message_id timeout events 0

/-- The default `timeout` of `wait_for_response` (seconds). -/
def defaultTimeout : ℚ := 30

/-- Outcome of the request/await/unwrap operations (`call_tool`,
`create_pipeline`, `test_pipeline`).  `ok` is a normal return of
`response["payload"]["result"]`; `raised` is the explicit
`raise Exception(...)` with its message string; `timeout` is the
propagated `TimeoutError`; `lookupError` is a propagated `KeyError` /
`TypeError` from indexing an ill-shaped reply; `attrError` and `starved`
propagate from `wait_for_response`. -/
inductive CallOutcome where
  | ok : Json → CallOutcome
  | raised : String → CallOutcome
  | timeout : CallOutcome
  | lookupError : CallOutcome
  | attrError : CallOutcome
  | starved : CallOutcome

/-- The shared unwrap of a matched reply, exactly as written in
`call_tool` / `create_pipeline` / `test_pipeline`:

    if response["type"] == "tool_error":
        raise Exception(f"<prefix>{response['payload']['error']['message']}")
    return response["payload"]["result"]
-/
def unwrapFound (errText : String) (data : Json) : CallOutcome :=
  match data.get "type" with
  | none => .lookupError
  | some t =>
    if jsonEqStr t "tool_error" then
      match data.get "payload" with
      | none => .lookupError
      | some p =>
        match p.get "error" with
        | none => .lookupError
        | some e =>
          match e.get "message" with
          | none => .lookupError
          | some m => .raised (errText ++ m.pyStr)
    else
      match data.get "payload" with
      | none => .lookupError
      | some p =>
        match p.get "result" with
        | none => .lookupError
        | some r => .ok r

/-- Turn the awaited reply (or its failure) into the operation's outcome. -/
def unwrap (errText : String) : WaitOutcome → CallOutcome
  | .found data => unwrapFound errText data
  | .timeoutExpired => .timeout
  | .attrError => .attrError
  | .starved => .starved

/-- Method `call_tool(self, tool, args)`: send a `tool_call` message, await the
matching reply with the default timeout, unwrap it (error prefix
`"Tool error: "`). -/
def call_tool (c : Client) (w : World) (events : List RecvEvent)
    (tool : String) (args : Json) : Option (CallOutcome × Client × World) :=
  match send_message c w "tool_call"
      (.obj [("tool", .str tool), ("args", args)]) with
  | none => none
  | some (msg_id, c1, w1) =>
    some (unwrap "Tool error: " (wait_for_response msg_id defaultTimeout events), c1, w1)

/-- Method `create_pipeline(self, spec)`: send a `pipeline_create` message, await
the matching reply, unwrap it (error prefix `"Pipeline creation failed: "`). -/
def create_pipeline (c : Client) (w : World) (events : List RecvEvent)
    (spec : Json) : Option (CallOutcome × Client × World) :=
  match send_message c w "pipeline_create"
      (.obj [("spec", spec),
             ("options", .obj [("validateFirst", .bool true),
                               ("autoConnect", .bool true)])]) with
  | none => none
  | some (msg_id, c1, w1) =>
    some (unwrap "Pipeline creation failed: "
      (wait_for_response msg_id defaultTimeout events), c1, w1)

/-- Method `test_pipeline(self, pipeline_id, test_data)`: send a `pipeline_test`
message, await the matching reply, unwrap it (error prefix
`"Pipeline test failed: "`). -/
def test_pipeline (c : Client) (w : World) (events : List RecvEvent)
    (pipeline_id : String) (test_data : List Json) :
    Option (CallOutcome × Client × World) :=
  match send_message c w "pipeline_test"
      (.obj [("pipelineId", .str pipeline_id),
             ("testData", .arr test_data),
             ("options", .obj [("timeout", .num 30000),
                               ("captureIntermediateResults", .bool true)])]) with
  | none => none
  | some (msg_id, c1, w1) =>
    some (unwrap "Pipeline test failed: "
      (wait_for_response msg_id defaultTimeout events), c1, w1)

/-- Method `get_current_project(self)`: `call_tool("getCurrentProject", {})`. -/
def get_current_project (c : Client) (w : World) (events : List RecvEvent) :
    Option (CallOutcome × Client × World) :=
  call_tool c w events "getCurrentProject" (.obj [])

/-- The identifier `send_message` will generate next from this client and
world: counter (after the bump) and the current clock reading's rendering. -/
def nextId (c : Client) (w : World) : String :=
  "py-" ++ pyNatStr (c.message_id + 1) ++ "-" ++ w.timeNow.render

/-! ## Small laws of the effect model -/

@[simp] theorem tick_sent (w : World) : w.tick.sent = w.sent := rfl

@[simp] theorem tick_openChans (w : World) : w.tick.openChans = w.openChans := rfl

@[simp] theorem tick_nextChan (w : World) : w.tick.nextChan = w.nextChan := rfl

theorem waitLoop_nil (mid : String) (t el : ℚ) :
    waitLoop mid t [] el = if el < t then .starved else .timeoutExpired := by
  rw [waitLoop]

theorem waitLoop_cons (mid : String) (t el : ℚ) (e : RecvEvent)
    (rest : List RecvEvent) :
    waitLoop mid t (e :: rest) el =
      if el < t then
        match e.result with
        | none => waitLoop mid t rest (el + e.duration)
        | some data =>
          match data with
          | .obj fields =>
            if optEqStr (getField fields "id") mid then .found data
            else waitLoop mid t rest (el + e.duration)
          | _ => .attrError
      else .timeoutExpired := by
  rw [waitLoop]

/-! ## Concrete states used by the witnesses -/

/-- A connected client: channel handle 0, no message sent yet. -/
def exClient : Client :=
  { host := "localhost", port := 8765, debug := false, ws := some 0, message_id := 0 }

/-- A world where channel 0 is open and three clock readings are queued. -/
def exWorld : World :=
  { clock := [⟨"100.5", 100500⟩, ⟨"100.6", 100600⟩, ⟨"100.7", 100700⟩],
    nextChan := 1, openChans := [0], sent := [] }

/-! ## C6: disconnect is idempotent -/

/-- C6: `disconnect()` is idempotent: for every client state, calling
disconnect twice in a row leaves the client (and the world) in the same
state as calling it once; the second call, on an already-cleared `self.ws`,
performs no operation at all, so it raises no error. -/
theorem disconnect_idempotent (c : Client) (w : World) :
    disconnect (disconnect c w).1 (disconnect c w).2 = disconnect c w := by
  cases h : c.ws <;> simp [disconnect, h]

/-! ## C8: send_message transmits exactly one message of the wire shape -/

/-- C8: for every type tag and payload, `send_message` on a connected
client appends exactly one message to the transmission log, of the shape
`{id: string, type: <tag>, timestamp: int(ms), payload: <payload>}`, and
returns exactly that message's id. -/
theorem send_message_transmits_one (c : Client) (w : World) (ch : Nat)
    (msg_type : String) (payload : Json) (h : c.ws = some ch) :
    ∃ i ts c' w',
      send_message c w msg_type payload = some (i, c', w') ∧
      i = "py-" ++ pyNatStr (c.message_id + 1) ++ "-" ++ w.timeNow.render ∧
      w'.sent = w.sent ++ [(ch, Json.obj
        [("id", .str i), ("type", .str msg_type),
         ("timestamp", .num ts), ("payload", payload)])] := by
  simp only [send_message, h]
  refine ⟨_, w.tick.timeNow.ms, _, _, rfl, rfl, ?_⟩
  simp

/-- Witness for C8 at the concrete connected client. -/
theorem send_message_transmits_one_witness :
    ∃ i ts c' w',
      send_message exClient exWorld "tool_call" Json.null = some (i, c', w') ∧
      i = "py-" ++ pyNatStr (exClient.message_id + 1) ++ "-" ++ exWorld.timeNow.render ∧
      w'.sent = exWorld.sent ++ [(0, Json.obj
        [("id", .str i), ("type", .str "tool_call"),
         ("timestamp", .num ts), ("payload", Json.null)])] :=
  send_message_transmits_one exClient exWorld 0 "tool_call" Json.null rfl

/-! ## Lemmas about the receive loop -/

/-- Comparison `data.get("id") == message_id` succeeds only on a present, string-typed,
equal id field. -/
theorem optEqStr_true {v : Option Json} {s : String} (h : optEqStr v s = true) :
    v = some (.str s) := by
  cases v with
  | none => cases h
  | some j => cases j <;> simp_all [optEqStr, jsonEqStr]

/-- Every inbound delivery that is a JSON object whose id lookup does not
compare equal to the awaited id is skipped, one recursion step per
delivery, and a later matching delivery is still returned. -/
theorem waitLoop_skips (mid : String) (timeout : ℚ) (e : RecvEvent)
    (final : Json) (hfin : e.result = some final)
    (hmatch : ∃ fields, final = .obj fields ∧
      optEqStr (getField fields "id") mid = true) :
    ∀ (decoys : List RecvEvent) (elapsed : ℚ),
      (∀ d ∈ decoys, ∃ fields, d.result = some (.obj fields) ∧
        optEqStr (getField fields "id") mid = false) →
      (∀ d ∈ decoys, 0 ≤ d.duration) →
      elapsed + (decoys.map RecvEvent.duration).sum < timeout →
      waitLoop mid timeout (decoys ++ [e]) elapsed = .found final := by
  intro decoys
  induction decoys with
  | nil =>
    intro elapsed _ _ ht
    simp only [List.map_nil, List.sum_nil, add_zero] at ht
    obtain ⟨fields, rfl, hm⟩ := hmatch
    rw [List.nil_append, waitLoop_cons, if_pos ht, hfin]
    simp [hm]
  | cons d rest ih =>
    intro elapsed hdec hdur ht
    obtain ⟨fields, hres, hne⟩ := hdec d (by simp)
    simp only [List.map_cons, List.sum_cons] at ht
    have hsum : 0 ≤ (rest.map RecvEvent.duration).sum := by
      apply List.sum_nonneg
      intro x hx
      obtain ⟨d', hd', rfl⟩ := List.mem_map.mp hx
      exact hdur d' (by simp [hd'])
    have hel : elapsed < timeout := by
      have := hdur d (by simp)
      linarith
    rw [List.cons_append, waitLoop_cons, if_pos hel, hres]
    simp only [hne, Bool.false_eq_true, if_false]
    exact ih (elapsed + d.duration)
      (fun d' hd' => hdec d' (by simp [hd']))
      (fun d' hd' => hdur d' (by simp [hd']))
      (by linarith)

/-- If no delivery ever matches (each is an object whose id lookup fails
the comparison) and the consumed receive time reaches the timeout, the
loop raises `TimeoutError`. -/
theorem waitLoop_no_match_timeout (mid : String) (timeout : ℚ) :
    ∀ (events : List RecvEvent) (elapsed : ℚ),
      (∀ e ∈ events, ∀ data, e.result = some data →
        ∃ fields, data = .obj fields ∧
          optEqStr (getField fields "id") mid = false) →
      timeout ≤ elapsed + (events.map RecvEvent.duration).sum →
      waitLoop mid timeout events elapsed = .timeoutExpired := by
  intro events
  induction events with
  | nil =>
    intro elapsed _ ht
    simp only [List.map_nil, List.sum_nil, add_zero] at ht
    rw [waitLoop_nil, if_neg (not_lt.mpr ht)]
  | cons e rest ih =>
    intro elapsed hnm ht
    rw [waitLoop_cons]
    by_cases hel : elapsed < timeout
    · rw [if_pos hel]
      simp only [List.map_cons, List.sum_cons] at ht
      rcases hres : e.result with _ | data
      · exact ih (elapsed + e.duration)
          (fun d hd => hnm d (by simp [hd])) (by linarith)
      · obtain ⟨fields, rfl, hne⟩ := hnm e (by simp) data hres
        simp only [hne, Bool.false_eq_true, if_false]
        exact ih (elapsed + e.duration)
          (fun d hd => hnm d (by simp [hd])) (by linarith)
    · rw [if_neg hel]

/-- Whatever the loop returns carries the awaited id: the returned value is
a JSON object whose `"id"` field is exactly the awaited string. -/
theorem waitLoop_found_has_id (mid : String) (t : ℚ) :
    ∀ (events : List RecvEvent) (el : ℚ) (data : Json),
      waitLoop mid t events el = .found data →
      ∃ fields, data = .obj fields ∧
        getField fields "id" = some (.str mid) := by
  intro events
  induction events with
  | nil =>
    intro el data h
    rw [waitLoop_nil] at h
    split at h <;> cases h
  | cons e rest ih =>
    intro el data h
    rw [waitLoop_cons] at h
    split at h
    · rcases hres : e.result with _ | d
      · rw [hres] at h
        exact ih (el + e.duration) data h
      · rw [hres] at h
        cases d with
        | obj fields =>
          dsimp only at h
          by_cases hid : optEqStr (getField fields "id") mid = true
          · rw [if_pos hid] at h
            cases h
            exact ⟨fields, rfl, optEqStr_true hid⟩
          · rw [if_neg hid] at h
            exact ih (el + e.duration) data h
        | null => cases h
        | bool b => cases h
        | num n => cases h
        | str s => cases h
        | arr xs => cases h
    · cases h

/-! ## C1: mismatched-id replies are discarded, the match is returned -/

/-- C1: while awaiting identifier `id`, a stream of N inbound messages
whose `"id"` field is present but differs from `id`, followed by one
message whose id equals `id`, resolves to the matching message: the N
decoys are dropped by the loop without being kept anywhere and without
raising, provided the receive time spent on the decoys stays inside the
timeout window. -/
theorem wait_for_response_discards_mismatched (id : String) (timeout : ℚ)
    (decoys : List RecvEvent) (e : RecvEvent) (final : Json)
    (hdec : ∀ d ∈ decoys, ∃ fields v, d.result = some (.obj fields) ∧
      getField fields "id" = some v ∧ jsonEqStr v id = false)
    (hdur : ∀ d ∈ decoys, 0 ≤ d.duration)
    (htime : (decoys.map RecvEvent.duration).sum < timeout)
    (hfin : e.result = some final)
    (hmatch : ∃ fields, final = .obj fields ∧
      optEqStr (getField fields "id") id = true) :
    wait_for_response id timeout (decoys ++ [e]) = .found final := by
  apply waitLoop_skips id timeout e final hfin hmatch decoys 0 ?_ hdur
    (by simpa using htime)
  intro d hd
  obtain ⟨fields, v, hres, hv, hne⟩ := hdec d hd
  refine ⟨fields, hres, ?_⟩
  rw [hv]
  exact hne

/-- Witness for C1: one decoy with a different id, then the match. -/
theorem wait_for_response_discards_mismatched_witness :
    wait_for_response "py-1-100.5" 30
      [⟨1, some (.obj [("id", .str "zzz")])⟩,
       ⟨2, some (.obj [("id", .str "py-1-100.5"), ("type", .str "tool_result")])⟩]
      = .found (.obj [("id", .str "py-1-100.5"), ("type", .str "tool_result")]) := by
  apply wait_for_response_discards_mismatched "py-1-100.5" 30
    [⟨1, some (.obj [("id", .str "zzz")])⟩]
    ⟨2, some (.obj [("id", .str "py-1-100.5"), ("type", .str "tool_result")])⟩
  · intro d hd
    rw [List.mem_singleton] at hd
    subst hd
    exact ⟨[("id", .str "zzz")], .str "zzz", rfl, rfl, by decide⟩
  · intro d hd
    rw [List.mem_singleton] at hd
    subst hd
    norm_num
  · norm_num
  · rfl
  · exact ⟨[("id", .str "py-1-100.5"), ("type", .str "tool_result")], rfl, by decide⟩

/-! ## C4: no matching reply within the timeout raises TimeoutError -/

/-- C4: if every message delivered to the loop is an object whose id
does not compare equal to the awaited `id`, and the receive time consumed
reaches the timeout window, `wait_for_response` ends in `TimeoutError`,
returning nothing; and the default window is 30 seconds. -/
theorem wait_for_response_times_out (id : String) (timeout : ℚ)
    (events : List RecvEvent)
    (hnm : ∀ e ∈ events, ∀ data, e.result = some data →
      ∃ fields, data = .obj fields ∧
        optEqStr (getField fields "id") id = false)
    (ht : timeout ≤ (events.map RecvEvent.duration).sum) :
    defaultTimeout = 30 ∧
    wait_for_response id timeout events = .timeoutExpired :=
  ⟨rfl, waitLoop_no_match_timeout id timeout events 0 hnm (by simpa using ht)⟩

/-- Witness for C4: a single unrelated 31-second delivery, 30-second
timeout. -/
theorem wait_for_response_times_out_witness :
    defaultTimeout = 30 ∧
    wait_for_response "x" 30 [⟨31, some (.obj [])⟩] = .timeoutExpired := by
  apply wait_for_response_times_out "x" 30 [⟨31, some (.obj [])⟩]
  · intro e he data hd
    rw [List.mem_singleton] at he
    subst he
    dsimp only at hd
    injection hd with h
    subst h
    exact ⟨[], rfl, rfl⟩
  · norm_num

/-! ## C10: messages lacking an id never match and are dropped silently -/

/-- C10: identifiers returned by `send_message` are never the empty
string; a reply returned by `wait_for_response` always carries an `"id"`
field equal to the awaited identifier (so a message lacking an `"id"`
field is never returned); and inbound object messages lacking an `"id"`
field are discarded without error, a later matching message still being
returned. -/
theorem wait_for_response_ignores_idless :
    (∀ (c : Client) (w : World) (ty : String) (p : Json) i c' w',
      send_message c w ty p = some (i, c', w') → i ≠ "") ∧
    (∀ (id : String) (timeout : ℚ) (events : List RecvEvent) (data : Json),
      wait_for_response id timeout events = .found data →
      ∃ fields, data = .obj fields ∧
        getField fields "id" = some (.str id)) ∧
    (∀ (id : String) (timeout : ℚ) (decoys : List RecvEvent) (e : RecvEvent)
      (final : Json),
      (∀ d ∈ decoys, ∃ fields, d.result = some (.obj fields) ∧
        getField fields "id" = none) →
      (∀ d ∈ decoys, 0 ≤ d.duration) →
      (decoys.map RecvEvent.duration).sum < timeout →
      e.result = some final →
      (∃ fields, final = .obj fields ∧
        optEqStr (getField fields "id") id = true) →
      wait_for_response id timeout (decoys ++ [e]) = .found final) := by
  refine ⟨?_, ?_, ?_⟩
  · intro c w ty p i c' w' hsend heq
    rcases hws : c.ws with _ | ch
    · rw [send_message, hws] at hsend
      cases hsend
    · rw [send_message, hws] at hsend
      dsimp only at hsend
      injection hsend with h1
      injection h1 with hi _
      subst heq
      have hlen := congrArg String.length hi
      rw [String.length_append, String.length_append,
        String.length_append] at hlen
      have h3 : "py-".length = 3 := rfl
      have h0 : "".length = 0 := rfl
      omega
  · intro id timeout events data h
    exact waitLoop_found_has_id id timeout events 0 data h
  · intro id timeout decoys e final hdec hdur htime hfin hmatch
    apply waitLoop_skips id timeout e final hfin hmatch decoys 0 ?_ hdur
      (by simpa using htime)
    intro d hd
    obtain ⟨fields, hres, hnone⟩ := hdec d hd
    refine ⟨fields, hres, ?_⟩
    rw [hnone]
    rfl

/-- Witness for C10: a generated id is non-empty, and an id-less push
message is skipped before the matching reply is returned. -/
theorem wait_for_response_ignores_idless_witness :
    (∃ r, send_message exClient exWorld "a" Json.null = some r ∧
      r.1 ≠ "") ∧
    wait_for_response "w" 30
      [⟨1, some (.obj [("type", .str "push")])⟩, ⟨1, some (.obj [("id", .str "w")])⟩]
      = .found (.obj [("id", .str "w")]) := by
  constructor
  · exact ⟨_, rfl,
      wait_for_response_ignores_idless.1 exClient exWorld "a" Json.null _ _ _ rfl⟩
  · apply wait_for_response_ignores_idless.2.2 "w" 30
      [⟨1, some (.obj [("type", .str "push")])⟩] ⟨1, some (.obj [("id", .str "w")])⟩
    · intro d hd
      rw [List.mem_singleton] at hd
      subst hd
      exact ⟨[("type", .str "push")], rfl, rfl⟩
    · intro d hd
      rw [List.mem_singleton] at hd
      subst hd
      norm_num
    · norm_num
    · rfl
    · exact ⟨[("id", .str "w")], rfl, by decide⟩

/-! ## Lemmas about the request/await/unwrap operations -/

/-- Comparison `value == s` succeeds only on the equal string value. -/
theorem jsonEqStr_true {v : Json} {s : String} (h : jsonEqStr v s = true) :
    v = .str s := by
  cases v <;> simp_all [jsonEqStr]

/-- Unfolding: `call_tool` on a connected client is: one `tool_call` transmission,
then the unwrap of the awaited reply. -/
theorem call_tool_eq (c : Client) (w : World) (ch : Nat)
    (events : List RecvEvent) (tool : String) (args : Json)
    (h : c.ws = some ch) :
    call_tool c w events tool args = some
      (unwrap "Tool error: "
        (wait_for_response (nextId c w) defaultTimeout events),
       { c with message_id := c.message_id + 1 },
       { w.tick.tick with sent := w.tick.tick.sent ++ [(ch, Json.obj
          [("id", .str (nextId c w)), ("type", .str "tool_call"),
           ("timestamp", .num w.tick.timeNow.ms),
           ("payload", .obj [("tool", .str tool), ("args", args)])])] }) := by
  simp only [call_tool, send_message, h, nextId]

/-- Unfolding: `create_pipeline` on a connected client is: one `pipeline_create`
transmission, then the unwrap of the awaited reply. -/
theorem create_pipeline_eq (c : Client) (w : World) (ch : Nat)
    (events : List RecvEvent) (spec : Json) (h : c.ws = some ch) :
    create_pipeline c w events spec = some
      (unwrap "Pipeline creation failed: "
        (wait_for_response (nextId c w) defaultTimeout events),
       { c with message_id := c.message_id + 1 },
       { w.tick.tick with sent := w.tick.tick.sent ++ [(ch, Json.obj
          [("id", .str (nextId c w)), ("type", .str "pipeline_create"),
           ("timestamp", .num w.tick.timeNow.ms),
           ("payload", .obj [("spec", spec),
             ("options", .obj [("validateFirst", .bool true),
                               ("autoConnect", .bool true)])])])] }) := by
  simp only [create_pipeline, send_message, h, nextId]

/-- Unfolding: `test_pipeline` on a connected client is: one `pipeline_test`
transmission, then the unwrap of the awaited reply. -/
theorem test_pipeline_eq (c : Client) (w : World) (ch : Nat)
    (events : List RecvEvent) (pipeline_id : String) (test_data : List Json)
    (h : c.ws = some ch) :
    test_pipeline c w events pipeline_id test_data = some
      (unwrap "Pipeline test failed: "
        (wait_for_response (nextId c w) defaultTimeout events),
       { c with message_id := c.message_id + 1 },
       { w.tick.tick with sent := w.tick.tick.sent ++ [(ch, Json.obj
          [("id", .str (nextId c w)), ("type", .str "pipeline_test"),
           ("timestamp", .num w.tick.timeNow.ms),
           ("payload", .obj [("pipelineId", .str pipeline_id),
             ("testData", .arr test_data),
             ("options", .obj [("timeout", .num 30000),
               ("captureIntermediateResults", .bool true)])])])] }) := by
  simp only [test_pipeline, send_message, h, nextId]

/-- The error branch (`raise Exception(...)`) runs only when the reply's
`"type"` field is exactly the string `"tool_error"`. -/
theorem unwrapFound_raised {ep : String} {data : Json} {msg : String}
    (h : unwrapFound ep data = .raised msg) :
    data.get "type" = some (.str "tool_error") := by
  rw [unwrapFound] at h
  rcases hty : data.get "type" with _ | t
  · rw [hty] at h
    cases h
  · rw [hty] at h
    dsimp only at h
    by_cases hb : jsonEqStr t "tool_error" = true
    · exact congrArg some (jsonEqStr_true hb)
    · rw [if_neg hb] at h
      rcases hp : data.get "payload" with _ | p <;> rw [hp] at h
      · cases h
      · dsimp only at h
        rcases hr : p.get "result" with _ | r <;> rw [hr] at h
        · cases h
        · cases h

/-! ## C2 (corrected): only the exact type "tool_error" is treated as error -/

/-- Counterexample to C2 as stated: a matching reply whose type is
`"pipeline_error"` — which ends in `"_error"` but is not `"tool_error"` —
is not recognized as an error: `call_tool` returns its `result` payload
instead of raising, even though an `error.message` is present. -/
theorem star_error_reply_not_recognized :
    (∃ c' w', call_tool exClient exWorld
      [⟨1, some (.obj [("id", .str "py-1-100.5"), ("type", .str "pipeline_error"),
        ("payload", .obj [("result", .str "R"),
                          ("error", .obj [("message", .str "boom")])])])⟩]
      "t" Json.null = some (.ok (.str "R"), c', w')) ∧
    "pipeline_error" = "pipeline" ++ "_error" ∧
    "pipeline_error" ≠ "tool_error" := by
  refine ⟨⟨_, _, rfl⟩, rfl, by decide⟩

/-- C2 (amended): a matching reply is recognized as an application-level
error — taking the raise branch — exactly when its `"type"` field is the
exact string `"tool_error"`; a type merely ending in `"_error"` is not
recognized.  Stated as: (1) any raised outcome of the unwrap came from a
found reply typed `"tool_error"`; (2) a found reply typed `"tool_error"`
with an `error.message` payload raises; (3–5) `call_tool`,
`create_pipeline` and `test_pipeline` are exactly this unwrap applied to
the awaited reply. -/
theorem error_recognized_iff_tool_error :
    (∀ (ep : String) (wres : WaitOutcome) (msg : String),
      unwrap ep wres = .raised msg →
      ∃ data, wres = .found data ∧
        data.get "type" = some (.str "tool_error")) ∧
    (∀ (ep : String) (data p e m : Json),
      data.get "type" = some (.str "tool_error") →
      data.get "payload" = some p → p.get "error" = some e →
      e.get "message" = some m →
      unwrapFound ep data = .raised (ep ++ m.pyStr)) ∧
    (∀ (c : Client) (w : World) (ch : Nat) (events : List RecvEvent)
      (tool : String) (args : Json), c.ws = some ch → ∃ c' w',
      call_tool c w events tool args = some
        (unwrap "Tool error: "
          (wait_for_response (nextId c w) defaultTimeout events), c', w')) ∧
    (∀ (c : Client) (w : World) (ch : Nat) (events : List RecvEvent)
      (spec : Json), c.ws = some ch → ∃ c' w',
      create_pipeline c w events spec = some
        (unwrap "Pipeline creation failed: "
          (wait_for_response (nextId c w) defaultTimeout events), c', w')) ∧
    (∀ (c : Client) (w : World) (ch : Nat) (events : List RecvEvent)
      (pid : String) (td : List Json), c.ws = some ch → ∃ c' w',
      test_pipeline c w events pid td = some
        (unwrap "Pipeline test failed: "
          (wait_for_response (nextId c w) defaultTimeout events), c', w')) := by
  refine ⟨?_, ?_, ?_, ?_, ?_⟩
  · intro ep wres msg h
    cases wres with
    | found data => exact ⟨data, rfl, unwrapFound_raised h⟩
    | timeoutExpired => cases h
    | attrError => cases h
    | starved => cases h
  · intro ep data p e m hty hp he hm
    rw [unwrapFound, hty]
    dsimp only
    rw [if_pos (by decide : jsonEqStr (.str "tool_error") "tool_error" = true), hp]
    dsimp only
    rw [he]
    dsimp only
    rw [hm]
  · intro c w ch events tool args h
    exact ⟨_, _, call_tool_eq c w ch events tool args h⟩
  · intro c w ch events spec h
    exact ⟨_, _, create_pipeline_eq c w ch events spec h⟩
  · intro c w ch events pid td h
    exact ⟨_, _, test_pipeline_eq c w ch events pid td h⟩

/-- Witness for C2 (amended): a concrete `tool_error` reply raises, and the
unwrap equation instantiates on the concrete connected client. -/
theorem error_recognized_iff_tool_error_witness :
    unwrapFound "Tool error: "
      (.obj [("type", .str "tool_error"),
             ("payload", .obj [("error", .obj [("message", .str "boom")])])])
      = .raised ("Tool error: " ++ Json.pyStr (.str "boom")) ∧
    (∃ c' w', call_tool exClient exWorld [] "t" Json.null = some
      (unwrap "Tool error: "
        (wait_for_response (nextId exClient exWorld) defaultTimeout []), c', w')) :=
  ⟨error_recognized_iff_tool_error.2.1 "Tool error: " _ _ _ _ rfl rfl rfl rfl,
   error_recognized_iff_tool_error.2.2.1 exClient exWorld 0 [] "t" Json.null rfl⟩

/-! ## C3: an error reply's message string surfaces in the raised failure -/

/-- C3: whenever the matching reply to a tool call has type
`"tool_error"` and payload `{error: {message: "X"}}`, `call_tool` raises a
failure whose message contains the string `X`, and returns no result. -/
theorem call_tool_error_raises (c : Client) (w : World) (ch : Nat)
    (events : List RecvEvent) (tool : String) (args : Json)
    (data p e : Json) (x : String)
    (h : c.ws = some ch)
    (hfound : wait_for_response (nextId c w) defaultTimeout events = .found data)
    (hty : data.get "type" = some (.str "tool_error"))
    (hp : data.get "payload" = some p)
    (he : p.get "error" = some e)
    (hm : e.get "message" = some (.str x)) :
    ∃ c' w' msg, call_tool c w events tool args = some (.raised msg, c', w') ∧
      ∃ pre suf, msg = pre ++ x ++ suf := by
  have hun : unwrap "Tool error: "
      (wait_for_response (nextId c w) defaultTimeout events)
      = .raised ("Tool error: " ++ x) := by
    rw [hfound]
    rw [show unwrap "Tool error: " (.found data)
      = unwrapFound "Tool error: " data from rfl]
    rw [unwrapFound, hty]
    dsimp only
    rw [if_pos (by decide : jsonEqStr (.str "tool_error") "tool_error" = true), hp]
    dsimp only
    rw [he]
    dsimp only
    rw [hm]
    rfl
  rw [call_tool_eq c w ch events tool args h, hun]
  exact ⟨_, _, _, rfl, "Tool error: ", "", by rw [String.append_empty]⟩

/-- Witness for C3: a concrete error reply with message `"boom"`. -/
theorem call_tool_error_raises_witness :
    ∃ c' w' msg,
      call_tool exClient exWorld
        [⟨1, some (.obj [("id", .str "py-1-100.5"), ("type", .str "tool_error"),
          ("payload", .obj [("error", .obj [("message", .str "boom")])])])⟩]
        "t" Json.null = some (.raised msg, c', w') ∧
      ∃ pre suf, msg = pre ++ "boom" ++ suf :=
  call_tool_error_raises exClient exWorld 0
    [⟨1, some (.obj [("id", .str "py-1-100.5"), ("type", .str "tool_error"),
      ("payload", .obj [("error", .obj [("message", .str "boom")])])])⟩]
    "t" Json.null
    (.obj [("id", .str "py-1-100.5"), ("type", .str "tool_error"),
      ("payload", .obj [("error", .obj [("message", .str "boom")])])])
    (.obj [("error", .obj [("message", .str "boom")])])
    (.obj [("message", .str "boom")]) "boom"
    rfl rfl rfl rfl rfl rfl

/-! ## C5: the getCurrentProject round trip -/

/-- C5: on a connected client, sending the `tool_call` request for
`getCurrentProject` with empty args and receiving a same-id `tool_result`
reply with payload `{result: {nodes: [], edges: []}}` makes
`get_current_project()` return `{nodes: [], edges: []}` — the `result`
field of the reply's payload — while exactly that request was
transmitted. -/
theorem get_current_project_scenario (c : Client) (w : World) (ch : Nat)
    (dur : ℚ) (h : c.ws = some ch) :
    ∃ c' w',
      get_current_project c w
        [⟨dur, some (.obj [("id", .str (nextId c w)), ("type", .str "tool_result"),
          ("payload", .obj [("result",
            .obj [("nodes", .arr []), ("edges", .arr [])])])])⟩]
        = some (.ok (.obj [("nodes", .arr []), ("edges", .arr [])]), c', w') ∧
      w'.sent = w.sent ++ [(ch, Json.obj
        [("id", .str (nextId c w)), ("type", .str "tool_call"),
         ("timestamp", .num w.tick.timeNow.ms),
         ("payload", .obj [("tool", .str "getCurrentProject"),
                           ("args", .obj [])])])] := by
  have hwait : wait_for_response (nextId c w) defaultTimeout
      [⟨dur, some (.obj [("id", .str (nextId c w)), ("type", .str "tool_result"),
        ("payload", .obj [("result",
          .obj [("nodes", .arr []), ("edges", .arr [])])])])⟩]
      = .found (.obj [("id", .str (nextId c w)), ("type", .str "tool_result"),
        ("payload", .obj [("result",
          .obj [("nodes", .arr []), ("edges", .arr [])])])]) := by
    rw [wait_for_response, waitLoop_cons,
      if_pos (show (0 : ℚ) < defaultTimeout by norm_num [defaultTimeout])]
    dsimp only
    simp [getField, optEqStr, jsonEqStr]
  have hun : unwrapFound "Tool error: "
      (.obj [("id", .str (nextId c w)), ("type", .str "tool_result"),
        ("payload", .obj [("result",
          .obj [("nodes", .arr []), ("edges", .arr [])])])])
      = .ok (.obj [("nodes", .arr []), ("edges", .arr [])]) := by
    rw [unwrapFound]
    simp [Json.get, getField, jsonEqStr]
  rw [get_current_project,
    call_tool_eq c w ch _ "getCurrentProject" (.obj []) h, hwait,
    show ∀ d, unwrap "Tool error: " (.found d) = unwrapFound "Tool error: " d
      from fun _ => rfl, hun]
  exact ⟨_, _, rfl, by simp⟩

/-- Witness for C5 at the concrete connected client. -/
theorem get_current_project_scenario_witness :
    ∃ c' w',
      get_current_project exClient exWorld
        [⟨1, some (.obj [("id", .str (nextId exClient exWorld)),
          ("type", .str "tool_result"),
          ("payload", .obj [("result",
            .obj [("nodes", .arr []), ("edges", .arr [])])])])⟩]
        = some (.ok (.obj [("nodes", .arr []), ("edges", .arr [])]), c', w') ∧
      w'.sent = exWorld.sent ++ [(0, Json.obj
        [("id", .str (nextId exClient exWorld)), ("type", .str "tool_call"),
         ("timestamp", .num exWorld.tick.timeNow.ms),
         ("payload", .obj [("tool", .str "getCurrentProject"),
                           ("args", .obj [])])])] :=
  get_current_project_scenario exClient exWorld 0 1 rfl

/-! ## C9: reconnecting overwrites the stored channel, never closing the old -/

/-- Fully computed form of `connect` on any client and world. -/
theorem connect_eq (c : Client) (w : World) :
    connect c w = some
      ({ c with ws := some w.nextChan, message_id := c.message_id + 1 },
       { clock := w.tick.tick.tick.clock,
         nextChan := w.nextChan + 1,
         openChans := w.nextChan :: w.openChans,
         sent := w.sent ++ [(w.nextChan, Json.obj
           [("id", .str ("py-" ++ pyNatStr (c.message_id + 1) ++ "-"
              ++ w.tick.timeNow.render)),
            ("type", .str "connect"),
            ("timestamp", .num w.tick.tick.timeNow.ms),
            ("payload", .obj
              [("clientId", .str ("python-client-" ++ w.timeNow.render)),
               ("version", .str "1.0.0"),
               ("capabilities",
                 .arr [.str "pipeline", .str "tools", .str "state"])])])] }) :=
  rfl

/-- C9: `connect()` on a client that already holds an open channel
stores a brand-new channel and sends the handshake on it; the previous
channel is not closed — it stays open — but is no longer referenced by the
client, and a subsequent `disconnect()` closes only the new channel. -/
theorem connect_replaces_channel (c : Client) (w : World) (old : Nat)
    (_hws : c.ws = some old) (hopen : old ∈ w.openChans)
    (hwf : ∀ x ∈ w.openChans, x < w.nextChan) :
    ∃ c' w' handshake,
      connect c w = some (c', w') ∧
      c'.ws = some w.nextChan ∧
      w.nextChan ≠ old ∧
      old ∈ w'.openChans ∧
      w'.sent = w.sent ++ [(w.nextChan, handshake)] ∧
      handshake.get "type" = some (.str "connect") ∧
      old ∈ (disconnect c' w').2.openChans ∧
      w.nextChan ∉ (disconnect c' w').2.openChans := by
  rw [connect_eq]
  refine ⟨_, _, _, rfl, rfl, (hwf old hopen).ne', List.mem_cons_of_mem _ hopen,
    rfl, by simp [Json.get, getField], ?_, ?_⟩
  · simp only [disconnect]
    rw [List.erase_cons_head]
    exact hopen
  · simp only [disconnect]
    rw [List.erase_cons_head]
    intro hmem
    exact Nat.lt_irrefl _ (hwf _ hmem)

/-- Witness for C9: reconnecting the concrete connected client. -/
theorem connect_replaces_channel_witness :
    ∃ c' w' handshake,
      connect exClient exWorld = some (c', w') ∧
      c'.ws = some exWorld.nextChan ∧
      exWorld.nextChan ≠ 0 ∧
      (0 : Nat) ∈ w'.openChans ∧
      w'.sent = exWorld.sent ++ [(exWorld.nextChan, handshake)] ∧
      handshake.get "type" = some (.str "connect") ∧
      (0 : Nat) ∈ (disconnect c' w').2.openChans ∧
      exWorld.nextChan ∉ (disconnect c' w').2.openChans :=
  connect_replaces_channel exClient exWorld 0 rfl (by decide) (by decide)

/-! ## C7: identifier uniqueness across successive sends -/

/-- The decimal digit characters printed for digits below ten are never a
dash. -/
theorem digitChar_ne_dash {d : Nat} (hd : d < 10) : Nat.digitChar d ≠ '-' := by
  interval_cases d <;> decide

/-- Code point of a digit character below ten. -/
theorem digitChar_toNat {d : Nat} (hd : d < 10) :
    (Nat.digitChar d).toNat = 48 + d := by
  interval_cases d <;> rfl

/-- No dash occurs among decimal digits. -/
theorem digitsAux_ne_dash : ∀ fuel n : Nat, ∀ ch ∈ digitsAux fuel n, ch ≠ '-' := by
  intro fuel
  induction fuel with
  | zero =>
    intro n ch hch
    cases n <;> simp [digitsAux] at hch
  | succ f ih =>
    intro n ch hch
    cases n with
    | zero => simp [digitsAux] at hch
    | succ m =>
      rw [digitsAux] at hch
      rcases List.mem_append.mp hch with h1 | h2
      · exact ih _ ch h1
      · rw [List.mem_singleton] at h2
        subst h2
        exact digitChar_ne_dash (Nat.mod_lt _ (by omega))

/-- Decimal value of a digit string (most significant first). -/
def digitsVal (ds : List Char) : Nat :=
  ds.foldl (fun a ch => 10 * a + (ch.toNat - 48)) 0

/-- Lemma: `digitsAux` round-trips through `digitsVal` whenever the fuel covers
the number. -/
theorem digitsAux_val : ∀ fuel n : Nat, n ≤ fuel →
    digitsVal (digitsAux fuel n) = n := by
  intro fuel
  induction fuel with
  | zero =>
    intro n hn
    interval_cases n
    rfl
  | succ f ih =>
    intro n hn
    cases n with
    | zero => rfl
    | succ m =>
      rw [digitsAux]
      unfold digitsVal
      rw [List.foldl_append]
      simp only [List.foldl_cons, List.foldl_nil]
      have hdiv : (m + 1) / 10 ≤ f := by
        have := Nat.div_lt_self (Nat.succ_pos m) (show 1 < 10 by omega)
        omega
      have hih := ih ((m + 1) / 10) hdiv
      unfold digitsVal at hih
      rw [hih, digitChar_toNat (Nat.mod_lt _ (by omega))]
      omega

/-- The decimal numeral evaluates back to the number. -/
theorem pyNatStr_val (n : Nat) : digitsVal (pyNatStr n).data = n := by
  by_cases hn : n = 0
  · subst hn
    rfl
  · rw [pyNatStr, if_neg hn]
    exact digitsAux_val n n le_rfl

/-- Decimal numerals are injective. -/
theorem pyNatStr_inj {m n : Nat} (h : pyNatStr m = pyNatStr n) : m = n := by
  have h2 := congrArg (fun s => digitsVal s.data) h
  simpa [pyNatStr_val] using h2

/-- No dash occurs in a decimal numeral. -/
theorem pyNatStr_ne_dash (n : Nat) : ∀ ch ∈ (pyNatStr n).data, ch ≠ '-' := by
  by_cases hn : n = 0
  · subst hn
    intro ch hch
    rw [show (pyNatStr 0).data = ['0'] from rfl, List.mem_singleton] at hch
    subst hch
    decide
  · rw [pyNatStr, if_neg hn]
    exact digitsAux_ne_dash n n

/-- Longest dash-free prefix of a character list. -/
def takeUntilDash : List Char → List Char
  | [] => []
  | a :: rest => if a = '-' then [] else a :: takeUntilDash rest

/-- Dropping everything from the first dash recovers a dash-free token. -/
theorem takeUntilDash_append (xs ys : List Char)
    (hxs : ∀ ch ∈ xs, ch ≠ '-') :
    takeUntilDash (xs ++ '-' :: ys) = xs := by
  induction xs with
  | nil => rfl
  | cons a rest ih =>
    rw [List.cons_append, takeUntilDash, if_neg (hxs a (by simp)),
      ih (fun ch hch => hxs ch (by simp [hch]))]

/-- The counter token of a generated identifier: the digits between the
`"py-"` prefix and the following dash. -/
def idCounter (s : String) : List Char := takeUntilDash (s.data.drop 3)

/-- Extracting the counter from a generated identifier gives back the
counter's numeral, whatever the time rendering holds. -/
theorem idCounter_mkId (k : Nat) (t : String) :
    idCounter ("py-" ++ pyNatStr k ++ "-" ++ t) = (pyNatStr k).data := by
  rw [idCounter]
  have hdata : ("py-" ++ pyNatStr k ++ "-" ++ t).data
      = 'p' :: 'y' :: '-' :: ((pyNatStr k).data ++ '-' :: t.data) := by
    simp [String.data_append]
  rw [hdata]
  simp only [List.drop_succ_cons, List.drop_zero]
  exact takeUntilDash_append _ _ (pyNatStr_ne_dash k)

/-- Two generated identifiers with different counters differ, whatever
their time renderings. -/
theorem mkId_counter_inj {k l : Nat} {s t : String}
    (h : "py-" ++ pyNatStr k ++ "-" ++ s = "py-" ++ pyNatStr l ++ "-" ++ t) :
    k = l := by
  have h2 := congrArg idCounter h
  rw [idCounter_mkId, idCounter_mkId] at h2
  exact pyNatStr_inj (congrArg String.mk h2)

/-- The identifiers produced by a sequence of `send_message` calls,
threading the client and world state through. -/
def sendAll (c : Client) (w : World) : List (String × Json) → List String
  | [] => []
  | (ty, p) :: rest =>
    match send_message c w ty p with
    | none => []
    | some (i, c1, w1) => i :: sendAll c1 w1 rest

/-- Every identifier produced after a send carries a counter strictly above
the client's counter at the start. -/
theorem sendAll_counters (ch : Nat) :
    ∀ (msgs : List (String × Json)) (c : Client) (w : World),
      c.ws = some ch → ∀ i ∈ sendAll c w msgs,
        ∃ k t, i = "py-" ++ pyNatStr k ++ "-" ++ t ∧ c.message_id < k := by
  intro msgs
  induction msgs with
  | nil =>
    intro c w h i hi
    simp [sendAll] at hi
  | cons m rest ih =>
    intro c w h i hi
    obtain ⟨ty, p⟩ := m
    rw [sendAll] at hi
    rw [show send_message c w ty p = some
      ("py-" ++ pyNatStr (c.message_id + 1) ++ "-" ++ w.timeNow.render,
       { c with message_id := c.message_id + 1 },
       { w.tick.tick with sent := w.tick.tick.sent ++ [(ch, Json.obj
          [("id", .str ("py-" ++ pyNatStr (c.message_id + 1) ++ "-"
             ++ w.timeNow.render)),
           ("type", .str ty), ("timestamp", .num w.tick.timeNow.ms),
           ("payload", p)])] })
      by simp only [send_message, h]] at hi
    dsimp only at hi
    rcases List.mem_cons.mp hi with h1 | h2
    · exact ⟨c.message_id + 1, w.timeNow.render, h1, Nat.lt_succ_self _⟩
    · obtain ⟨k, t, rfl, hk⟩ :=
        ih { c with message_id := c.message_id + 1 } _ h i h2
      have hk2 : c.message_id + 1 < k := hk
      exact ⟨k, t, rfl, by omega⟩

/-- The identifiers of any run of sends on a connected client are pairwise
distinct: each send bumps the counter, and the counter token separates
distinct identifiers. -/
theorem sendAll_pairwise (ch : Nat) :
    ∀ (msgs : List (String × Json)) (c : Client) (w : World),
      c.ws = some ch → (sendAll c w msgs).Pairwise (· ≠ ·) := by
  intro msgs
  induction msgs with
  | nil =>
    intro c w _
    simp [sendAll]
  | cons m rest ih =>
    intro c w h
    obtain ⟨ty, p⟩ := m
    rw [sendAll]
    rw [show send_message c w ty p = some
      ("py-" ++ pyNatStr (c.message_id + 1) ++ "-" ++ w.timeNow.render,
       { c with message_id := c.message_id + 1 },
       { w.tick.tick with sent := w.tick.tick.sent ++ [(ch, Json.obj
          [("id", .str ("py-" ++ pyNatStr (c.message_id + 1) ++ "-"
             ++ w.timeNow.render)),
           ("type", .str ty), ("timestamp", .num w.tick.timeNow.ms),
           ("payload", p)])] })
      by simp only [send_message, h]]
    dsimp only
    refine List.Pairwise.cons ?_
      (ih { c with message_id := c.message_id + 1 } _ h)
    intro j hj heq
    obtain ⟨k, t, rfl, hk⟩ :=
      sendAll_counters ch rest { c with message_id := c.message_id + 1 } _ h j hj
    have hk2 : c.message_id + 1 < k := hk
    have hkl := mkId_counter_inj heq
    omega

/-- C7: the counter inside each generated identifier strictly increases
from one send to the next on the same client, and therefore any sequence
of sends on one connected client yields pairwise distinct identifier
strings (whatever the interleaved wall-clock renderings are). -/
theorem send_ids_distinct (c : Client) (w : World) (ch : Nat)
    (msgs : List (String × Json)) (h : c.ws = some ch) :
    (∀ ty p i c' w', send_message c w ty p = some (i, c', w') →
      c.message_id < c'.message_id) ∧
    (sendAll c w msgs).Pairwise (· ≠ ·) := by
  constructor
  · intro ty p i c' w' hs
    rw [send_message, h] at hs
    dsimp only at hs
    injection hs with h1
    injection h1 with _ h2
    injection h2 with h3 _
    rw [← h3]
    exact Nat.lt_succ_self _
  · exact sendAll_pairwise ch msgs c w h

/-- Witness for C7: two successive sends on the concrete connected client
produce distinct identifiers. -/
theorem send_ids_distinct_witness :
    (sendAll exClient exWorld [("a", Json.null), ("b", Json.null)]).Pairwise
      (· ≠ ·) :=
  (send_ids_distinct exClient exWorld 0
    [("a", Json.null), ("b", Json.null)] rfl).2

end Noodles
